import Mathlib

/-!
Shallow embedding of `src/run_playwright.py`: the capture listeners
(lines 11-39), the frame-content extraction (lines 46-69) and the
per-target network/file classification loop (lines 107-145), together
with theorems settling the frozen claims about them.
-/

namespace RunPlaywright

/-! ## String containment, mirroring the Python `in` operator on strings -/

/-- Whether the second character list starts with the first one. -/
def startsWithChars : List Char → List Char → Bool
  | [], _ => true
  | _ :: _, [] => false
  | a :: as, b :: bs => a == b && startsWithChars as bs

/-- Whether the first character list occurs contiguously inside the second. -/
def containsChars : List Char → List Char → Bool
  | needle, [] => needle.isEmpty
  | needle, c :: rest => startsWithChars needle (c :: rest) || containsChars needle rest

/-- Python `needle in hay` on strings: contiguous substring containment. -/
def strContains (hay needle : String) : Bool :=
  containsChars needle.toList hay.toList

/-! ## Event records (run_playwright.py lines 11-39)

The script keeps three separate lists: `alerts` (dialog lines),
`console_messages` (console records) and `network_requests_raw`
(request / requestfailed / response records).  Python dictionaries with
per-kind key sets are modelled as structures with `Option` fields for
the keys that only some kinds carry. -/

/-- A console record as appended at lines 16, 57 and 67: keys `source`,
`type`, `text`, and the `url` entry of the `location` mapping (`none`
models both a missing key and the empty `location` dict `{}`). -/
structure ConsoleMsg where
  source : String
  type : String
  text : String
  location_url : Option String
deriving DecidableEq

/-- One entry of `network_requests_raw` (lines 18-39).  `method`,
`status`, `headers` and `failure_text` are `Option`s because each of the
three event kinds stores a different key set in its dictionary. -/
structure NetEvent where
  event_type : String
  url : String
  method : Option String
  status : Option Nat
  headers : Option (List (String × String))
  failure_text : Option String
  frame_url : String
deriving DecidableEq

/-- The listener state: the three lists initialised empty at lines 11-13. -/
structure CaptureState where
  alerts : List String
  console_messages : List ConsoleMsg
  network_requests_raw : List NetEvent
deriving DecidableEq

/-- Lines 11-13: all three capture lists start empty. -/
def initState : CaptureState := ⟨[], [], []⟩

/-- Line 29: `failure_text_val if failure_text_val else "N/A"` — the
driver-supplied failure reason if truthy (present and non-empty),
otherwise the sentinel `"N/A"`. -/
def failureTextRecorded : Option String → String
  | none => "N/A"
  | some s => if s = "" then "N/A" else s

/-- The dialog line built at line 15:
`f"Dialog: {dialog.message} (URL: {dialog.page.url})"`. -/
def dialogLine (message page_url : String) : String :=
  "Dialog: " ++ message ++ " (URL: " ++ page_url ++ ")"

/-- The console record built by the listener at line 16. -/
def consoleRecord (msg_type text : String) (location_url : Option String) : ConsoleMsg :=
  ⟨"main_page_or_outer_iframe", msg_type, text, location_url⟩

/-- The dictionary appended by `handle_request` (lines 18-22). -/
def handle_request (url method : String) (headers : List (String × String))
    (frame_url : String) : NetEvent :=
  ⟨"request", url, some method, none, some headers, none, frame_url⟩

/-- The dictionary appended by `handle_request_failed` (lines 25-31). -/
def handle_request_failed (url method : String) (failure : Option String)
    (frame_url : String) : NetEvent :=
  ⟨"requestfailed", url, some method, none, none, some (failureTextRecorded failure), frame_url⟩

/-- The dictionary appended by `handle_response` (lines 34-38). -/
def handle_response (url : String) (status : Nat) (headers : List (String × String))
    (frame_url : String) : NetEvent :=
  ⟨"response", url, none, some status, some headers, none, frame_url⟩

/-- A raw driver callback, one constructor per registered listener
(`dialog`, `console`, `request`, `requestfailed`, `response`). -/
inductive RawCallback where
  | dialog (message : String) (page_url : String)
  | console (msg_type : String) (text : String) (location_url : Option String)
  | request (url : String) (method : String) (headers : List (String × String)) (frame_url : String)
  | requestfailed (url : String) (method : String) (failure : Option String) (frame_url : String)
  | response (url : String) (status : Nat) (headers : List (String × String)) (frame_url : String)
deriving DecidableEq

/-- Dispatch of one driver callback to the listener registered for its
kind: each listener appends one record to its own list (lines 15-39). -/
def handleCallback (st : CaptureState) : RawCallback → CaptureState
  | .dialog m pu =>
      { st with alerts := st.alerts ++ [dialogLine m pu] }
  | .console ty tx loc =>
      { st with console_messages := st.console_messages ++ [consoleRecord ty tx loc] }
  | .request u m h f =>
      { st with network_requests_raw := st.network_requests_raw ++ [handle_request u m h f] }
  | .requestfailed u m fl f =>
      { st with network_requests_raw := st.network_requests_raw ++ [handle_request_failed u m fl f] }
  | .response u s h f =>
      { st with network_requests_raw := st.network_requests_raw ++ [handle_response u s h f] }

/-- Processing of a whole arrival sequence of driver callbacks. -/
def processCallbacks (st : CaptureState) (cs : List RawCallback) : CaptureState :=
  cs.foldl handleCallback st

/-- The network record a callback contributes, if any. -/
def netEventOfCallback : RawCallback → Option NetEvent
  | .request u m h f => some (handle_request u m h f)
  | .requestfailed u m fl f => some (handle_request_failed u m fl f)
  | .response u s h f => some (handle_response u s h f)
  | _ => none

/-- The console record a callback contributes, if any. -/
def consoleOfCallback : RawCallback → Option ConsoleMsg
  | .console ty tx loc => some (consoleRecord ty tx loc)
  | _ => none

/-- The alert line a callback contributes, if any. -/
def alertOfCallback : RawCallback → Option String
  | .dialog m pu => some (dialogLine m pu)
  | _ => none

/-! ## The frame hierarchy and the content extraction (lines 46-69)

A live frame is modelled with its URL, the outcome of its `content()`
call (`Except.error` models a raised exception, carrying `str(e)`), and
its ordered `child_frames`.  `page.frames` is the flat list of all
frames of the page, main frame first. -/

/-- One live frame of the loaded page. -/
inductive Frame where
  | node (url : String) (contentResult : Except String String) (children : List Frame)

/-- The frame's URL. -/
def Frame.url : Frame → String
  | .node u _ _ => u

/-- The outcome of the frame's `content()` call. -/
def Frame.contentResult : Frame → Except String String
  | .node _ c _ => c

/-- The frame's ordered `child_frames`. -/
def Frame.children : Frame → List Frame
  | .node _ _ ch => ch

mutual
/-- Flat enumeration of a frame and all its descendants, the frame first. -/
def Frame.flatten : Frame → List Frame
  | .node u c ch => .node u c ch :: flattenList ch

/-- Flat enumeration of a forest of frames, left to right. -/
def flattenList : List Frame → List Frame
  | [] => []
  | f :: fs => Frame.flatten f ++ flattenList fs
end

/-- `page.frames`: the flat list of all frames attached to the page,
main frame first (the outer iframe, when present, is at index 1). -/
def pageFrames (main : Frame) : List Frame := Frame.flatten main

/-- One entry of `inner_iframes_html_list` (lines 63 and 66): a name and
a content string. -/
structure InnerEntry where
  name : String
  content : String
deriving DecidableEq

/-- The data the extraction pass (lines 46-69) leaves behind: the main
page HTML, the `outer_iframe_html` slot, `inner_iframes_html_list`, and
the `script_info` error records it appended to `console_messages`. -/
structure CaptureOut where
  main_html : String
  outer_iframe_html : String
  inner_iframes_html_list : List InnerEntry
  console_appends : List ConsoleMsg
deriving DecidableEq

/-- Line 60: `f"Inner iframe {i+1} (src: {inner_frame.url})"`. -/
def innerName (i : Nat) (f : Frame) : String :=
  "Inner iframe " ++ toString (i + 1) ++ " (src: " ++ f.url ++ ")"

/-- Lines 62-66: the string stored for an inner frame — its document
content on success, otherwise `"Could not access content: {str(e)}"`. -/
def innerContentOf (f : Frame) : String :=
  match f.contentResult with
  | Except.ok c => c
  | Except.error e => "Could not access content: " ++ e

/-- Lines 53-56: the string stored in `outer_iframe_html` — the outer
frame's content on success, otherwise
`"Could not access outer iframe content: {str(e)}"`. -/
def outerContentOf (f : Frame) : String :=
  match f.contentResult with
  | Except.ok c => c
  | Except.error e => "Could not access outer iframe content: " ++ e

/-- The `inner_iframes_html_list` entry built for the `i`-th inner frame. -/
def innerEntryOf (i : Nat) (f : Frame) : InnerEntry :=
  ⟨innerName i f, innerContentOf f⟩

/-- Line 57: the `script_info` console record appended when the outer
frame's content call raises. -/
def outerConsoleAppends (f : Frame) : List ConsoleMsg :=
  match f.contentResult with
  | Except.ok _ => []
  | Except.error e =>
      [⟨"script_info", "error", "Failed to get outer_iframe content: " ++ e, none⟩]

/-- Line 67: the `script_info` console record appended when the `i`-th
inner frame's content call raises. -/
def innerConsoleAppends (i : Nat) (f : Frame) : List ConsoleMsg :=
  match f.contentResult with
  | Except.ok _ => []
  | Except.error e =>
      [⟨"script_info", "error",
        "Failed to get content for " ++ innerName i f ++ ": " ++ e, none⟩]

/-- The extraction pass of lines 46-69.  `page.content()` (line 46) is
not guarded by a `try`, so a failure there aborts the run
(`Except.error`).  Otherwise: if `len(page.frames) > 1`, the frame at
index 1 is the outer iframe — its content is fetched under `try` and
each of its direct `child_frames` gets one `inner_iframes_html_list`
entry; else the placeholder `"Outer iframe not found."` is stored and
the inner list stays empty. -/
def capture (main : Frame) : Except String CaptureOut :=
  match main.contentResult with
  | Except.error e => Except.error e
  | Except.ok main_html =>
      let frames := pageFrames main
      if h : 1 < frames.length then
        let outer := frames[1]
        Except.ok
          ⟨main_html, outerContentOf outer,
            outer.children.enum.map (fun p => innerEntryOf p.1 p.2),
            outerConsoleAppends outer ++
              (outer.children.enum.map (fun p => innerConsoleAppends p.1 p.2)).flatten⟩
      else
        Except.ok ⟨main_html, "Outer iframe not found.", [], []⟩

/-! ## Per-target classification (lines 107-145) -/

/-- The outcome of the HTTP branch of the summary loop (lines 129-145),
one constructor per distinguishable print shape: `Succeeded` lists the
matching 200 responses, `Failed` the matching requestfailed records,
`Inconclusive` the other matching records, and `NoActivity` is the case
with no matching records at all. -/
inductive TargetOutcome where
  | Succeeded (responses : List NetEvent)
  | Failed (failures : List NetEvent)
  | Inconclusive (others : List NetEvent)
  | NoActivity
deriving DecidableEq

/-- Line 131: `r['event_type'] == 'response' and r.get('status') == 200`. -/
def isSuccessResp (r : NetEvent) : Bool :=
  r.event_type == "response" && r.status == some 200

/-- Line 132: `r['event_type'] == 'requestfailed'`. -/
def isFailedReq (r : NetEvent) : Bool :=
  r.event_type == "requestfailed"

/-- Line 130: `[req for req in network_requests_raw if url_substring in
req.get("url","")]`. -/
def matchingEvents (net : List NetEvent) (sub : String) : List NetEvent :=
  net.filter (fun r => strContains r.url sub)

/-- Line 143: the matching records that are in neither the successful
nor the failed list. -/
def othersOf (ms : List NetEvent) : List NetEvent :=
  ms.filter (fun r =>
    decide (r ∉ ms.filter isSuccessResp) && decide (r ∉ ms.filter isFailedReq))

/-- Lines 131-145 for one target, on the already-matched records:
successful 200 responses win, else failed requests, else the remaining
matching records are reported as inconclusive activity, else there was
no activity at all. -/
def classifyFromMatching (ms : List NetEvent) : TargetOutcome :=
  if ms.filter isSuccessResp ≠ [] then TargetOutcome.Succeeded (ms.filter isSuccessResp)
  else if ms.filter isFailedReq ≠ [] then TargetOutcome.Failed (ms.filter isFailedReq)
  else if othersOf ms ≠ [] then TargetOutcome.Inconclusive (othersOf ms)
  else TargetOutcome.NoActivity

/-- The HTTP branch of the summary loop for one target substring. -/
def classifyNet (net : List NetEvent) (sub : String) : TargetOutcome :=
  classifyFromMatching (matchingEvents net sub)

/-- The outcome of the file branch of the summary loop (lines 117-127),
one constructor per print shape. -/
inductive FileOutcome where
  | LikelyBlocked
  | ConsoleErrors
  | NoPattern
deriving DecidableEq

/-- Line 119: console records whose text contains the target substring,
or whose location url equals it while the record's type is `"error"`. -/
def console_errors_for_file (console : List ConsoleMsg) (sub : String) : List ConsoleMsg :=
  console.filter (fun msg =>
    strContains msg.text sub || (msg.location_url == some sub && msg.type == "error"))

/-- Line 122: some `inner_iframes_html_list` entry whose name contains
the target substring has the error string in its content slot. -/
def blockedInnerMatch (inners : List InnerEntry) (sub : String) : Bool :=
  inners.any (fun d => strContains d.name sub && strContains d.content "Could not access content")

/-- Lines 117-127: the file branch of the summary loop. -/
def classifyFile (console : List ConsoleMsg) (inners : List InnerEntry)
    (sub : String) : FileOutcome :=
  if blockedInnerMatch inners sub then FileOutcome.LikelyBlocked
  else if console_errors_for_file console sub ≠ [] then FileOutcome.ConsoleErrors
  else FileOutcome.NoPattern

/-- The overall per-target outcome: file-scheme targets take the file
branch, all others the HTTP branch. -/
inductive Outcome where
  | net (o : TargetOutcome)
  | file (o : FileOutcome)
deriving DecidableEq

/-- Lines 116-145 for one target: the dispatch `if "file://" in
url_substring` selects the file branch, else the HTTP branch. -/
def classifyTarget (net : List NetEvent) (console : List ConsoleMsg)
    (inners : List InnerEntry) (sub : String) : Outcome :=
  if strContains sub "file://" then Outcome.file (classifyFile console inners sub)
  else Outcome.net (classifyNet net sub)

/-- Lines 107-114: the table of named target substrings. -/
def targets_of_interest : List (String × String) :=
  [("instance-data", "http://instance-data/latest/meta-data/"),
   ("localhost:443", "http://127.0.0.1:443/"),
   ("localhost:80", "http://127.0.0.1:80/"),
   ("gcp-token",
    "http://metadata.google.internal/computeMetadata/v1beta1/instance/service-accounts/default/token"),
   ("file-root", "file:///"),
   ("file-var-www", "file:///var/www/html/")]

/-! ## Concrete sample data used by witnesses and counterexamples -/

/-- The metadata target substring of `targets_of_interest`. -/
def metaUrl : String := "http://instance-data/latest/meta-data/"

/-- A requestfailed record for the metadata target. -/
def failEv : NetEvent := handle_request_failed metaUrl "GET" none "file:///main"

/-- A 200 response record for the metadata target. -/
def succEv : NetEvent := handle_response metaUrl 200 [] "file:///main"

/-- A plain request record for the localhost:443 target. -/
def reqEv : NetEvent := handle_request "http://127.0.0.1:443/" "GET" [] "file:///main"

/-! ## Claim theorems -/

/-- C1: for every event log and target substring, if at least one
matched network record is a response with status 200 then the HTTP
classification yields `Succeeded` with exactly the matching 200
responses — regardless of matching requestfailed records, including ones
recorded earlier in the log; `Failed` is produced exactly when no
matched 200 response exists and at least one matched requestfailed
record does. -/
theorem classify_success_outranks_failure (net : List NetEvent) (sub : String) :
    ((matchingEvents net sub).filter isSuccessResp ≠ [] →
      classifyNet net sub
        = TargetOutcome.Succeeded ((matchingEvents net sub).filter isSuccessResp))
    ∧ (∀ l, classifyNet net sub = TargetOutcome.Failed l →
        (matchingEvents net sub).filter isSuccessResp = []
        ∧ (matchingEvents net sub).filter isFailedReq ≠ []
        ∧ l = (matchingEvents net sub).filter isFailedReq)
    ∧ ((matchingEvents net sub).filter isSuccessResp = [] →
        (matchingEvents net sub).filter isFailedReq ≠ [] →
        classifyNet net sub
          = TargetOutcome.Failed ((matchingEvents net sub).filter isFailedReq)) := by
  refine ⟨?_, ?_, ?_⟩
  · intro h
    simp [classifyNet, classifyFromMatching, h]
  · intro l h
    by_cases h1 : (matchingEvents net sub).filter isSuccessResp = []
    · by_cases h2 : (matchingEvents net sub).filter isFailedReq = []
      · exfalso
        by_cases h3 : othersOf (matchingEvents net sub) = [] <;>
          simp [classifyNet, classifyFromMatching, h1, h2, h3] at h
      · have hc : classifyNet net sub
            = TargetOutcome.Failed ((matchingEvents net sub).filter isFailedReq) := by
          simp [classifyNet, classifyFromMatching, h1, h2]
        have h4 := hc.symm.trans h
        injection h4 with h5
        exact ⟨h1, h2, h5.symm⟩
    · exfalso
      have hc : classifyNet net sub
          = TargetOutcome.Succeeded ((matchingEvents net sub).filter isSuccessResp) := by
        simp [classifyNet, classifyFromMatching, h1]
      have h4 := hc.symm.trans h
      cases h4
  · intro h1 h2
    simp [classifyNet, classifyFromMatching, h1, h2]

/-- Witness for C1 at a concrete log: a requestfailed record for the
metadata target followed later by a 200 response for the same URL
classifies as `Succeeded`; a log with only the failure classifies as
`Failed`. -/
theorem classify_success_outranks_failure_witness :
    classifyNet [failEv, succEv] metaUrl = TargetOutcome.Succeeded [succEv]
    ∧ classifyNet [failEv] metaUrl = TargetOutcome.Failed [failEv] := by
  constructor
  · have h := (classify_success_outranks_failure [failEv, succEv] metaUrl).1 (by decide)
    exact h.trans (by decide)
  · have h := (classify_success_outranks_failure [failEv] metaUrl).2.2 (by decide) (by decide)
    exact h.trans (by decide)

/-- C5: for every event log and target substring, a log with no
matching record classifies as `NoActivity`; a log with at least one
matching request record but no matching 200 response and no matching
requestfailed record classifies as `Inconclusive` (carrying the matching
records); and `Inconclusive` and `NoActivity` are distinct outcomes. -/
theorem classify_noactivity_vs_inconclusive (net : List NetEvent) (sub : String) :
    (matchingEvents net sub = [] → classifyNet net sub = TargetOutcome.NoActivity)
    ∧ ((∃ r ∈ matchingEvents net sub, r.event_type = "request") →
        (matchingEvents net sub).filter isSuccessResp = [] →
        (matchingEvents net sub).filter isFailedReq = [] →
        classifyNet net sub = TargetOutcome.Inconclusive (matchingEvents net sub))
    ∧ (∀ l, TargetOutcome.Inconclusive l ≠ TargetOutcome.NoActivity) := by
  refine ⟨?_, ?_, ?_⟩
  · intro h
    simp [classifyNet, classifyFromMatching, othersOf, h]
  · rintro ⟨r, hr, -⟩ h1 h2
    have hothers : othersOf (matchingEvents net sub) = matchingEvents net sub := by
      simp [othersOf, h1, h2]
    have hne : matchingEvents net sub ≠ [] := List.ne_nil_of_mem hr
    simp [classifyNet, classifyFromMatching, h1, h2, hothers, hne]
  · intro l h
    cases h

/-- Witness for C5 at concrete logs: a single matching request record
with no terminal event classifies as `Inconclusive`, and the empty log
classifies as `NoActivity`. -/
theorem classify_noactivity_vs_inconclusive_witness :
    classifyNet [reqEv] "http://127.0.0.1:443/" = TargetOutcome.Inconclusive [reqEv]
    ∧ classifyNet [] "http://127.0.0.1:443/" = TargetOutcome.NoActivity := by
  constructor
  · have h := (classify_noactivity_vs_inconclusive [reqEv] "http://127.0.0.1:443/").2.1
      (by decide) (by decide) (by decide)
    exact h.trans (by decide)
  · exact (classify_noactivity_vs_inconclusive [] "http://127.0.0.1:443/").1 rfl

/-- C9: classification is deterministic and pure — classifying the same
data twice yields the same outcome, and the outcome depends on the
network log only through the records matching the target substring (two
logs with the same matching records classify identically, for fixed
console and frame data). -/
theorem classification_deterministic_pure (net net2 : List NetEvent)
    (console : List ConsoleMsg) (inners : List InnerEntry) (sub : String)
    (h : matchingEvents net sub = matchingEvents net2 sub) :
    classifyTarget net console inners sub = classifyTarget net console inners sub
    ∧ classifyTarget net console inners sub = classifyTarget net2 console inners sub := by
  refine ⟨rfl, ?_⟩
  by_cases hf : strContains sub "file://" <;>
    simp [classifyTarget, hf, classifyNet, h]

/-- Witness for C9 at concrete data: the empty log and a log holding
only a non-matching request classify identically for the localhost:443
target. -/
theorem classification_deterministic_pure_witness :
    classifyTarget [] [] [] "http://127.0.0.1:443/"
      = classifyTarget [handle_request "http://example.com/" "GET" [] "f"] [] []
          "http://127.0.0.1:443/" := by
  exact (classification_deterministic_pure []
    [handle_request "http://example.com/" "GET" [] "f"] [] [] "http://127.0.0.1:443/"
    (by decide)).2

/-- The file-var-www target substring of `targets_of_interest`. -/
def fileSub : String := "file:///var/www/html/"

/-- A console error record whose location url equals `fileSub`. -/
def locMsgA : ConsoleMsg := ⟨"main_page_or_outer_iframe", "error", "boom", some fileSub⟩

/-- A console error record with the same text as `locMsgA` but no
location url. -/
def locMsgB : ConsoleMsg := ⟨"main_page_or_outer_iframe", "error", "boom", none⟩

/-- C6 counterexample: the claim says file-scheme classification is
computed from the frame tree and from console-message text matched by
substring.  Here two captures agree on the frame data (both empty) and
on every console-message text (`"boom"`, which does not contain the
target), yet classify differently, because line 119 of the source also
matches a console record whose `location.url` equals the target while
its type is `"error"`.  So the outcome is not a function of frame tree
and console text alone. -/
theorem file_target_console_location_dependence :
    locMsgA.text = locMsgB.text
    ∧ classifyTarget [] [locMsgA] [] fileSub ≠ classifyTarget [] [locMsgB] [] fileSub := by
  exact ⟨rfl, by decide⟩

/-- C6 (amended): for every file-scheme target (substring containing
`"file://"`), classification takes the file branch — computed from the
`inner_iframes_html_list` frame data and from console records matched
either by text substring or by location-url equality on error records —
and is independent of the network event log; the HTTP precedence rule is
never applied. -/
theorem file_target_ignores_network_events (net net2 : List NetEvent)
    (console : List ConsoleMsg) (inners : List InnerEntry) (sub : String)
    (h : strContains sub "file://" = true) :
    classifyTarget net console inners sub = Outcome.file (classifyFile console inners sub)
    ∧ classifyTarget net console inners sub = classifyTarget net2 console inners sub := by
  constructor <;> simp [classifyTarget, h]

/-- Witness for C6 at concrete data: for the file-var-www target, a log
holding a network request classifies exactly as the empty log, through
the file branch. -/
theorem file_target_ignores_network_events_witness :
    classifyTarget [reqEv] [] [] fileSub = Outcome.file FileOutcome.NoPattern
    ∧ classifyTarget [reqEv] [] [] fileSub = classifyTarget [] [] [] fileSub := by
  have h := file_target_ignores_network_events [reqEv] [] [] [] fileSub (by decide)
  exact ⟨h.1.trans (by decide), h.2⟩

/-- C7 counterexample: the claim says the sentinel substituted for a
missing driver failure reason is `"unknown"`; the record built by
`handle_request_failed` for a reason-less failure carries the sentinel
`"N/A"` instead (line 29 of the source). -/
theorem failure_sentinel_is_na_not_unknown :
    (handleCallback initState
        (RawCallback.requestfailed "http://127.0.0.1:80/" "GET" none
          "file:///main")).network_requests_raw.map (fun r => r.failure_text)
      = [some "N/A"]
    ∧ "N/A" ≠ "unknown" := by
  exact ⟨rfl, by decide⟩

/-- C7 (amended): the recorded failure reason string is never empty —
when the driver supplies no failure reason (or an empty one), the
sentinel `"N/A"` is substituted, and a non-empty supplied reason is kept
as is. -/
theorem failure_text_nonempty_with_na_sentinel (failure : Option String) :
    failureTextRecorded failure ≠ ""
    ∧ ((failure = none ∨ failure = some "") → failureTextRecorded failure = "N/A")
    ∧ (∀ s, s ≠ "" → failure = some s → failureTextRecorded failure = s) := by
  refine ⟨?_, ?_, ?_⟩
  · cases failure with
    | none => simp [failureTextRecorded]
    | some s =>
      simp only [failureTextRecorded]
      split
      · simp
      · simpa using by assumption
  · rintro (rfl | rfl) <;> simp [failureTextRecorded]
  · rintro s hs rfl
    simp [failureTextRecorded, hs]

/-- Witness for C7 at the concrete reason-less input: the recorded
failure text is non-empty and equals `"N/A"`. -/
theorem failure_text_nonempty_with_na_sentinel_witness :
    failureTextRecorded none ≠ "" ∧ failureTextRecorded none = "N/A" := by
  exact ⟨(failure_text_nonempty_with_na_sentinel none).1,
    (failure_text_nonempty_with_na_sentinel none).2.1 (Or.inl rfl)⟩

/-- Unfolding step: processing a callback sequence starts with its head. -/
lemma processCallbacks_cons (st : CaptureState) (cb : RawCallback) (cs : List RawCallback) :
    processCallbacks st (cb :: cs) = processCallbacks (handleCallback st cb) cs := rfl

/-- Each callback appends exactly its own record to exactly its own list. -/
lemma handleCallback_fields (st : CaptureState) (cb : RawCallback) :
    (handleCallback st cb).alerts = st.alerts ++ (alertOfCallback cb).toList
    ∧ (handleCallback st cb).console_messages
        = st.console_messages ++ (consoleOfCallback cb).toList
    ∧ (handleCallback st cb).network_requests_raw
        = st.network_requests_raw ++ (netEventOfCallback cb).toList := by
  cases cb <;>
    simp [handleCallback, alertOfCallback, consoleOfCallback, netEventOfCallback]

/-- A console callback and a request callback arriving in either order
leave the captured state identical. -/
def consoleThenRequest : List RawCallback :=
  [RawCallback.console "log" "hello" none,
   RawCallback.request "http://127.0.0.1:80/" "GET" [] "file:///main"]

/-- The same two callbacks as `consoleThenRequest`, in the opposite
arrival order. -/
def requestThenConsole : List RawCallback :=
  [RawCallback.request "http://127.0.0.1:80/" "GET" [] "file:///main",
   RawCallback.console "log" "hello" none]

/-- C2 counterexample: the claim says all five event kinds land in one
shared ordered log whose strictly increasing sequence numbers preserve
arrival order across kinds.  The listeners of lines 11-39 instead append
to three separate lists and attach no sequence number: two different
arrival orders of a console callback and a request callback produce
identical captured state, so no data in the capture records their
relative order. -/
theorem event_log_cross_kind_order_lost :
    processCallbacks initState consoleThenRequest
      = processCallbacks initState requestThenConsole
    ∧ consoleThenRequest ≠ requestThenConsole := by
  exact ⟨rfl, by decide⟩

/-- C2 (amended): every driver callback appends exactly one record to
exactly one of the three per-kind lists (dialog lines to `alerts`,
console records to `console_messages`, network records to
`network_requests_raw`), and each list equals the order-preserving
projection of the arrival sequence to its kinds — so within each list
arrival order is preserved with no gaps or duplicates, while relative
order across the three lists is not recorded. -/
theorem per_kind_lists_preserve_arrival_order (st : CaptureState) (cs : List RawCallback) :
    (processCallbacks st cs).alerts = st.alerts ++ cs.filterMap alertOfCallback
    ∧ (processCallbacks st cs).console_messages
        = st.console_messages ++ cs.filterMap consoleOfCallback
    ∧ (processCallbacks st cs).network_requests_raw
        = st.network_requests_raw ++ cs.filterMap netEventOfCallback := by
  induction cs generalizing st with
  | nil => simp [processCallbacks]
  | cons cb cs ih =>
    obtain ⟨a1, a2, a3⟩ := handleCallback_fields st cb
    obtain ⟨b1, b2, b3⟩ := ih (handleCallback st cb)
    refine ⟨?_, ?_, ?_⟩ <;>
      rw [processCallbacks_cons] <;>
      [rw [b1, a1]; rw [b2, a2]; rw [b3, a3]] <;>
      [cases hcb : alertOfCallback cb; cases hcb : consoleOfCallback cb;
       cases hcb : netEventOfCallback cb] <;>
      simp [List.filterMap_cons, hcb]

/-- The flat frame list of a page whose main frame has at least one
child: the main frame first, then that first child, then the remaining
descendants. -/
lemma pageFrames_cons (u : String) (cr : Except String String) (c : Frame)
    (rest : List Frame) :
    pageFrames (Frame.node u cr (c :: rest))
      = Frame.node u cr (c :: rest) :: c :: (flattenList c.children ++ flattenList rest) := by
  cases c with | node cu cc cch =>
    simp [pageFrames, Frame.flatten, flattenList, Frame.children]

/-- A four-level frame chain: main page, outer iframe, inner iframe, and
one frame nested inside the inner iframe whose content is the marker
string `"DEEPCONTENT"`. -/
def deepFrame : Frame := Frame.node "file:///deep" (Except.ok "DEEPCONTENT") []

/-- The inner iframe of the four-level chain, parent of `deepFrame`. -/
def innerFrame : Frame := Frame.node "http://inner/" (Except.ok "INNERCONTENT") [deepFrame]

/-- The outer iframe of the four-level chain, parent of `innerFrame`. -/
def outerFrame : Frame := Frame.node "http://outer/" (Except.ok "OUTERCONTENT") [innerFrame]

/-- The main frame of the four-level chain, parent of `outerFrame`. -/
def mainFrame4 : Frame := Frame.node "file:///main" (Except.ok "MAINCONTENT") [outerFrame]

/-- C3 counterexample: the claim says the walker recursively visits the
frame hierarchy to arbitrary depth, attempting content extraction for
every frame.  On a live hierarchy of four frames the extraction of lines
46-69 stops at the direct children of the outer iframe: the output holds
exactly three content strings and the fourth frame's content
`"DEEPCONTENT"` appears nowhere in it. -/
theorem walker_misses_depth_three_frame :
    capture mainFrame4
      = Except.ok ⟨"MAINCONTENT", "OUTERCONTENT",
          [⟨"Inner iframe 1 (src: http://inner/)", "INNERCONTENT"⟩], []⟩
    ∧ (pageFrames mainFrame4).length = 4
    ∧ "DEEPCONTENT" ∉ ["MAINCONTENT", "OUTERCONTENT", "INNERCONTENT"] := by
  exact ⟨rfl, rfl, by decide⟩

/-- C3 (amended): the walk of lines 46-69 is fixed-depth, not recursive:
for every page whose main frame has at least one child, it extracts the
main page's content, the content of the frame at index 1 of the flat
frame list (the first child of the main frame), and one entry per direct
child of that frame — whatever the fan-out `rest` of further main-frame
children and whatever deeper structure the grandchildren have, none of
which is visited. -/
theorem walker_fixed_depth_characterization (murl main_html : String) (c : Frame)
    (rest : List Frame) :
    capture (Frame.node murl (Except.ok main_html) (c :: rest))
      = Except.ok ⟨main_html, outerContentOf c,
          c.children.enum.map (fun p => innerEntryOf p.1 p.2),
          outerConsoleAppends c ++
            (c.children.enum.map (fun p => innerConsoleAppends p.1 p.2)).flatten⟩ := by
  have hpf := pageFrames_cons murl (Except.ok main_html) c rest
  simp only [capture, Frame.contentResult, hpf]
  rw [dif_pos (by simp)]
  simp

/-- C4: when the outer frame's content call fails with reason `oe` while
its two child frames are retrievable, the walk does not abort: the
result records the outer frame's error descriptor, both grandchildren's
populated content, and the single `script_info` console record for the
outer failure. -/
theorem walker_partial_failure_tolerance (murl main_html ourl oe u1 c1 u2 c2 : String) :
    capture (Frame.node murl (Except.ok main_html)
        [Frame.node ourl (Except.error oe)
          [Frame.node u1 (Except.ok c1) [], Frame.node u2 (Except.ok c2) []]])
      = Except.ok ⟨main_html,
          "Could not access outer iframe content: " ++ oe,
          [⟨"Inner iframe 1 (src: " ++ u1 ++ ")", c1⟩,
           ⟨"Inner iframe 2 (src: " ++ u2 ++ ")", c2⟩],
          [⟨"script_info", "error", "Failed to get outer_iframe content: " ++ oe, none⟩]⟩ := by
  have hpf := pageFrames_cons murl (Except.ok main_html)
    (Frame.node ourl (Except.error oe)
      [Frame.node u1 (Except.ok c1) [], Frame.node u2 (Except.ok c2) []]) []
  simp only [capture, Frame.contentResult, hpf]
  rw [dif_pos (by simp)]
  simp only [innerEntryOf, innerName, innerContentOf, outerContentOf,
    outerConsoleAppends, innerConsoleAppends, Frame.url, Frame.children,
    Frame.contentResult, Frame.flatten, flattenList, List.enum, List.enumFrom,
    List.map_cons, List.map_nil, List.flatten, List.append_nil, List.nil_append,
    List.cons_append, List.getElem_cons_succ, List.getElem_cons_zero,
    CaptureOut.mk.injEq, Except.ok.injEq]
  exact ⟨trivial, trivial, rfl, trivial⟩

/-- C8: for every frame, exactly one of the two roles is populated in
the string the walker stores for it: either the frame's content call
succeeded and the stored string is that document content, or it failed
and the stored string is the error descriptor — never both, for the
inner-frame slot as well as for the outer-frame slot. -/
theorem frame_entry_content_error_exclusive (f : Frame) :
    (((∃ c, f.contentResult = Except.ok c ∧ innerContentOf f = c)
        ∧ ¬(∃ e, f.contentResult = Except.error e
              ∧ innerContentOf f = "Could not access content: " ++ e))
      ∨ ((∃ e, f.contentResult = Except.error e
              ∧ innerContentOf f = "Could not access content: " ++ e)
        ∧ ¬(∃ c, f.contentResult = Except.ok c ∧ innerContentOf f = c)))
    ∧ (((∃ c, f.contentResult = Except.ok c ∧ outerContentOf f = c)
        ∧ ¬(∃ e, f.contentResult = Except.error e
              ∧ outerContentOf f = "Could not access outer iframe content: " ++ e))
      ∨ ((∃ e, f.contentResult = Except.error e
              ∧ outerContentOf f = "Could not access outer iframe content: " ++ e)
        ∧ ¬(∃ c, f.contentResult = Except.ok c ∧ outerContentOf f = c))) := by
  cases hc : f.contentResult with
  | ok c =>
    constructor
    · exact Or.inl ⟨⟨c, rfl, by simp [innerContentOf, hc]⟩,
        by rintro ⟨e, he, -⟩; cases he⟩
    · exact Or.inl ⟨⟨c, rfl, by simp [outerContentOf, hc]⟩,
        by rintro ⟨e, he, -⟩; cases he⟩
  | error e =>
    constructor
    · exact Or.inr ⟨⟨e, rfl, by simp [innerContentOf, hc]⟩,
        by rintro ⟨c, hok, -⟩; cases hok⟩
    · exact Or.inr ⟨⟨e, rfl, by simp [outerContentOf, hc]⟩,
        by rintro ⟨c, hok, -⟩; cases hok⟩

/-- C10: when the page's flat frame list holds at most one frame (no
embedded frame beneath the main frame) and the main content call
succeeds, the extraction still completes without error, the outer-frame
slot holds the fixed placeholder `"Outer iframe not found."` (line 69),
the inner-frame list is empty, and no console record is appended — so
all output artifacts are still produced. -/
theorem capture_single_frame_placeholder (main : Frame) (m : String)
    (h : main.contentResult = Except.ok m)
    (h2 : (pageFrames main).length ≤ 1) :
    capture main = Except.ok ⟨m, "Outer iframe not found.", [], []⟩ := by
  have hlt : ¬ 1 < (pageFrames main).length := by omega
  simp only [capture, h]
  rw [dif_neg hlt]

/-- Witness for C10 at the concrete single-frame page. -/
theorem capture_single_frame_placeholder_witness :
    capture (Frame.node "file:///main" (Except.ok "MAIN") [])
      = Except.ok ⟨"MAIN", "Outer iframe not found.", [], []⟩ := by
  exact capture_single_frame_placeholder (Frame.node "file:///main" (Except.ok "MAIN") [])
    "MAIN" rfl (by simp [pageFrames, Frame.flatten, flattenList])

end RunPlaywright
